import Mathlib

/-!
Verification of the Environmental Risk Analytics Engine of the silo-monitor
repository (aggregation server `app.js` plus the embedded ESP32 edge agent
contained in the same source file).  JavaScript / C float arithmetic is
modelled by exact real arithmetic on `ℝ`; JSON configuration documents and
request bodies, whose values are decimal literals, are modelled over `ℚ`.
-/

namespace Silo

/-- Trend labels produced by the server's `getTrendLabel` and the edge agent's
`analyzeTrends` (which can additionally report the two insufficient-data
states). -/
inductive TrendLabel where
  | RISING_RAPIDLY
  | RISING
  | FALLING_RAPIDLY
  | FALLING
  | STABLE
  | INSUFFICIENT_DATA
  | NEED_MORE_DATA
  deriving DecidableEq, Repr

/-- The four grain-health classes returned by `determineGrainHealth`. -/
inductive GrainHealth where
  | GOOD
  | CAUTION
  | WARNING
  | CRITICAL
  deriving DecidableEq, Repr

namespace Edge

/-- The edge agent's dynamic configuration globals (source lines 1191-1226),
with the initial values used before any configuration fetch succeeds.  These
initial values coincide with the server's reference defaults
(`getDefaultConfig`). -/
structure Config where
  TEMP_IDEAL_MIN : ℝ := 4
  TEMP_IDEAL_MAX : ℝ := 8
  TEMP_WARNING_MIN : ℝ := 3
  TEMP_WARNING_MAX : ℝ := 12
  TEMP_CRITICAL_MIN : ℝ := 2
  TEMP_CRITICAL_MAX : ℝ := 15
  HUM_IDEAL_MIN : ℝ := 90
  HUM_IDEAL_MAX : ℝ := 95
  HUM_WARNING_MIN : ℝ := 85
  HUM_WARNING_MAX : ℝ := 98
  HUM_CRITICAL_MIN : ℝ := 80
  HUM_CRITICAL_MAX : ℝ := 100
  RISK_LOW : ℝ := 20
  RISK_MEDIUM : ℝ := 40
  RISK_HIGH : ℝ := 70
  RISK_CRITICAL : ℝ := 85
  DEW_POINT_DIFF : ℝ := 2

/-- The reference default configuration (the agent's initial globals, equal to
the server's `getDefaultConfig` thresholds). -/
def defaultConfig : Config := {}

/-- `calculateDewPoint` (edge agent): Magnus-formula dew point. -/
noncomputable def calculateDewPoint (temp hum : ℝ) : ℝ :=
  let a : ℝ := 17.27
  let b : ℝ := 237.7
  let alpha : ℝ := ((a * temp) / (b + temp)) + Real.log (hum / 100)
  (b * alpha) / (a - alpha)

/-- `calculateSpoilageRisk` (edge agent): additive penalty model, summed in
source order and finally clamped to at most 100 by `min risk 100`.  Each
guarded `risk += term` / `else if` statement of the source is rendered as
adding the correspondingly guarded increment (0 when no guard fires). -/
noncomputable def calculateSpoilageRisk (cfg : Config) (temp hum : ℝ) : ℝ :=
  let risk : ℝ := 0
  -- Temperature risk
  let risk := risk +
    (if temp > cfg.TEMP_CRITICAL_MAX then (temp - cfg.TEMP_CRITICAL_MAX) * 4
     else if temp > cfg.TEMP_WARNING_MAX then (temp - cfg.TEMP_WARNING_MAX) * 2
     else 0)
  let risk := risk +
    (if temp < cfg.TEMP_CRITICAL_MIN then (cfg.TEMP_CRITICAL_MIN - temp) * 3
     else if temp < cfg.TEMP_IDEAL_MIN then 10
     else 0)
  -- Humidity risk
  let risk := risk +
    (if hum < cfg.HUM_WARNING_MIN then (cfg.HUM_WARNING_MIN - hum) * 2 else 0)
  let risk := risk +
    (if hum > cfg.HUM_CRITICAL_MAX then (hum - cfg.HUM_CRITICAL_MAX) * 5
     else if hum > cfg.HUM_IDEAL_MAX then (hum - cfg.HUM_IDEAL_MAX) * 2
     else 0)
  -- Dew point risk: high condensation risk adds a flat 40
  let risk := risk +
    (if calculateDewPoint temp hum > temp - cfg.DEW_POINT_DIFF then 40 else 0)
  -- Sprouting risk (if temp above ideal range)
  let risk := risk +
    (if temp > cfg.TEMP_IDEAL_MAX then (temp - cfg.TEMP_IDEAL_MAX) * 1.5 else 0)
  min risk 100

/-- `determineGrainHealth` (edge agent). -/
noncomputable def determineGrainHealth (cfg : Config) (risk : ℝ) : GrainHealth :=
  if risk > cfg.RISK_HIGH then .CRITICAL
  else if risk > cfg.RISK_MEDIUM then .WARNING
  else if risk > cfg.RISK_LOW then .CAUTION
  else .GOOD

/-- The slope-to-label classification at the end of the edge agent's
`analyzeTrends` (source lines 1636-1642). -/
noncomputable def analyzeTrendsLabel (slope : ℝ) : TrendLabel :=
  if |slope| < 0.3 then .STABLE
  else if slope > 0.8 then .RISING_RAPIDLY
  else if slope > 0.3 then .RISING
  else if slope < -0.8 then .FALLING_RAPIDLY
  else if slope < -0.3 then .FALLING
  else .STABLE

/-- The alarm-state update performed by `processSensorData` (source lines
1722-1730): two sequential guarded assignments to `alarmActive`
(`startAlarm` sets it to `true`, `stopAlarm` to `false`). -/
noncomputable def alarmStep (trig stop : ℝ) (active : Bool) (risk : ℝ) : Bool :=
  let active := if risk > trig ∧ active = false then true else active
  let active := if risk ≤ stop ∧ active = true then false else active
  active

/-- `fetchConfig` (source line 1935): the stop threshold is auto-calculated
as the trigger threshold minus 20. -/
def alarmStopThreshold (trig : ℝ) : ℝ := trig - 20

end Edge

namespace Server

/-- `getTrendLabel` (aggregation server, source lines 1038-1044). -/
noncomputable def getTrendLabel (trendValue : ℝ) : TrendLabel :=
  if trendValue > 1.0 then .RISING_RAPIDLY
  else if trendValue > 0.3 then .RISING
  else if trendValue < -1.0 then .FALLING_RAPIDLY
  else if trendValue < -0.3 then .FALLING
  else .STABLE

/-- A sensor-data row as consumed by `generateDashboardAnalytics`.  The
`mq_value` and `spoilageRisk` columns can be NULL, which the source's
`d.mq_value || 0` / `d.spoilageRisk || 0` coerces to 0 (so do the `getD 0`
reads below; a stored numeric 0 is likewise mapped to 0 by both). -/
structure Row where
  temperature : ℝ
  humidity : ℝ
  mq_value : Option ℝ
  spoilageRisk : Option ℝ

/-- `rows.slice(-10)`: the trailing window of at most 10 rows. -/
def recentData (rows : List Row) : List Row := rows.drop (rows.length - 10)

/-- `recentData.map(d => d.mq_value || 0)`. -/
def mqValues (rows : List Row) : List ℝ :=
  (recentData rows).map (fun d => d.mq_value.getD 0)

/-- The `airQualityDecline.detected` expression of `generateDashboardAnalytics`
(source line 608): `mqValues.length > 3 && mqValues[mqValues.length - 1] > 300`.
`getLastD 0` agrees with the JS indexing: on a non-empty list it is the last
element, and on an empty list both sides make the comparison false. -/
def airQualityDeclineDetected (rows : List Row) : Prop :=
  (mqValues rows).length > 3 ∧ (mqValues rows).getLastD 0 > 300

/-- `predictedRisk` (source line 590), as a function of the latest risk
(`latest.spoilageRisk || 0`) and the per-sample risk change. -/
noncomputable def predictedRisk (latestRisk riskChange : ℝ) : ℝ :=
  min 100 (max 0 (latestRisk + riskChange * 6))

/-- `timeToCritical` (source line 591), as a function of the latest risk
(`latest.spoilageRisk || 0`) and the per-sample risk change: defined only for
strictly positive change, otherwise `null`. -/
noncomputable def timeToCritical (latestRisk riskChange : ℝ) : Option ℤ :=
  if riskChange > 0 then some (max 1 (round ((70 - latestRisk) / riskChange)))
  else none

/-- Recommendation priorities. -/
inductive Priority where
  | CRITICAL
  | HIGH
  | MEDIUM
  | LOW
  deriving DecidableEq, Repr

/-- `priorityOrder` (source line 968): the sort comparator's rank. -/
def priorityOrder : Priority → ℕ
  | .CRITICAL => 0
  | .HIGH => 1
  | .MEDIUM => 2
  | .LOW => 3

/-- A recommendation entry `{priority, message, action}`. -/
structure Rec where
  priority : Priority
  message : String
  action : String
  deriving DecidableEq, Repr

/-- The comparator ordering used by `recommendations.sort((a, b) =>
priorityOrder[a.priority] - priorityOrder[b.priority])`. -/
def recLE (a b : Rec) : Prop := priorityOrder a.priority ≤ priorityOrder b.priority

instance : DecidableRel recLE := fun a b =>
  Nat.decLe (priorityOrder a.priority) (priorityOrder b.priority)

instance : IsTotal Rec recLE := ⟨fun _ _ => Nat.le_total _ _⟩

instance : IsTrans Rec recLE := ⟨fun _ _ _ h1 h2 => Nat.le_trans h1 h2⟩

/-- `trends.spoilageRisk?.value?.includes('RISING')`: exactly the labels
`RISING` and `RISING_RAPIDLY` contain the substring `RISING`. -/
def includesRising (t : TrendLabel) : Prop :=
  t = .RISING ∨ t = .RISING_RAPIDLY

instance (t : TrendLabel) : Decidable (includesRising t) :=
  inferInstanceAs (Decidable (t = .RISING ∨ t = .RISING_RAPIDLY))

/-- The rule evaluation of `generatePrioritizedRecommendations` before the
final sort: each source `if (...) recommendations.push({...})` statement in
order.  `latest.dewPoint && ...` is JS truthiness of the dew-point number
(false for a missing or zero dew point). -/
noncomputable def rawRecommendations (temp hum risk mq dewPoint : ℝ)
    (riskTrend : TrendLabel) : List Rec :=
  (if temp < 3 then
    [⟨.CRITICAL, "🚨 FREEZING TEMPERATURE: Immediate action needed to prevent potato damage!",
      "Increase heating immediately"⟩] else [])
  ++ (if risk > 70 then
    [⟨.CRITICAL, "🚨 CRITICAL SPOILAGE RISK: Immediate intervention required",
      "Check grain condition and adjust environment"⟩] else [])
  ++ (if temp > 12 then
    [⟨.HIGH, "🌡️ Temperature too high for potato storage",
      "Increase cooling/ventilation to reach 4-8°C range"⟩] else [])
  ++ (if hum < 85 then
    [⟨.HIGH, "💧 Humidity too low - risk of weight loss",
      "Increase humidity to 90-95% range"⟩] else [])
  ++ (if hum > 95 then
    [⟨.HIGH, "💦 Humidity very high - condensation risk",
      "Reduce humidity and check for wet spots"⟩] else [])
  ++ (if dewPoint ≠ 0 ∧ temp - dewPoint < 2 then
    [⟨.MEDIUM, "⚠️ Condensation risk detected",
      "Monitor for moisture and improve air circulation"⟩] else [])
  ++ (if mq > 300 then
    [⟨.MEDIUM, "☣️ Poor air quality detected",
      "Increase ventilation to reduce gas levels"⟩] else [])
  ++ (if includesRising riskTrend then
    [⟨.MEDIUM, "📈 Spoilage risk is increasing",
      "Monitor closely and prepare to adjust conditions"⟩] else [])
  ++ (if 4 ≤ temp ∧ temp ≤ 8 ∧ 90 ≤ hum ∧ hum ≤ 95 ∧ risk < 40 then
    [⟨.LOW, "✅ Conditions optimal for potato storage",
      "Maintain current temperature (4-8°C) and humidity (90-95%)"⟩] else [])

/-- `generatePrioritizedRecommendations`: the matching rules' entries, sorted
by priority rank.  ES2019 `Array.prototype.sort` is specified to be stable;
insertion sort with the non-strict rank comparison (`List.insertionSort`
along `recLE`) is a stable sort by that comparator. -/
noncomputable def generatePrioritizedRecommendations (temp hum risk mq dewPoint : ℝ)
    (riskTrend : TrendLabel) : List Rec :=
  List.insertionSort recLE (rawRecommendations temp hum risk mq dewPoint riskTrend)

/-- Confidence levels of `calculateConfidenceWithFactors`. -/
inductive ConfLevel where
  | low
  | medium
  | high
  deriving DecidableEq, Repr

/-- Rank of a confidence level, for stating monotonicity. -/
def ConfLevel.rank : ConfLevel → ℕ
  | .low => 0
  | .medium => 1
  | .high => 2

/-- Data-volume factor of `calculateConfidenceWithFactors`. -/
def dataVolumeScore (dataPoints : ℕ) : ℕ :=
  if dataPoints > 20 then 40 else if dataPoints > 10 then 25 else 10

/-- `clearTrends`: the trend values (across metrics) that are neither
`STABLE` nor `INSUFFICIENT_DATA`. -/
def clearTrendsCount (trends : List TrendLabel) : ℕ :=
  (trends.filter (fun t => decide (t ≠ .STABLE ∧ t ≠ .INSUFFICIENT_DATA))).length

/-- Trend-clarity factor of `calculateConfidenceWithFactors`. -/
def trendClarityScore (trends : List TrendLabel) : ℕ :=
  if clearTrendsCount trends ≥ 2 then 30
  else if clearTrendsCount trends ≥ 1 then 15
  else 0

/-- `detectedPatterns`: the number of pattern entries with `detected` true. -/
def detectedPatternsCount (patterns : List Bool) : ℕ :=
  (patterns.filter (fun p => p = true)).length

/-- Pattern-detection factor of `calculateConfidenceWithFactors`. -/
def patternScore (patterns : List Bool) : ℕ :=
  if detectedPatternsCount patterns > 0 then 20 else 0

/-- The composite confidence score: data volume, trend clarity, pattern
detection, plus the fixed base-consistency 10. -/
def confidenceScore (dataPoints : ℕ) (trends : List TrendLabel)
    (patterns : List Bool) : ℕ :=
  dataVolumeScore dataPoints + trendClarityScore trends + patternScore patterns + 10

/-- The level mapping at the end of `calculateConfidenceWithFactors`. -/
def confidenceLevel (score : ℕ) : ConfLevel :=
  if score ≥ 70 then .high else if score ≥ 40 then .medium else .low

/-- The `{level, score}` part of the `calculateConfidenceWithFactors`
result (the `factors` strings are display-only). -/
def calculateConfidenceWithFactors (dataPoints : ℕ) (trends : List TrendLabel)
    (patterns : List Bool) : ConfLevel × ℕ :=
  (confidenceLevel (confidenceScore dataPoints trends patterns),
   confidenceScore dataPoints trends patterns)

/-- A JSON value as carried by configuration documents: numbers (exact
rationals), strings, booleans and objects (ordered key/value lists; parsed
JSON objects have pairwise distinct keys). -/
inductive JVal where
  | num (q : ℚ)
  | str (s : String)
  | bool (b : Bool)
  | obj (fields : List (String × JVal))

/-- `isObject` (source lines 360-362). -/
def isObject : JVal → Bool
  | .obj _ => true
  | _ => false

/-- JS property read `o[key]` on an object's field list. -/
def lookupField : List (String × JVal) → String → Option JVal
  | [], _ => none
  | (k, v) :: rest, key => if k = key then some v else lookupField rest key

/-- JS property write `o[key] = v` (`Object.assign(output, {[key]: v})`):
overwrite in place when the key exists, append otherwise. -/
def setField : List (String × JVal) → String → JVal → List (String × JVal)
  | [], key, v => [(key, v)]
  | (k, w) :: rest, key, v =>
    if k = key then (key, v) :: rest else (k, w) :: setField rest key v

mutual

/-- `deepMerge` (source lines 340-358).  When both arguments are objects the
source keys are folded over the copied target; otherwise the function falls
through to `Object.assign({}, target)`, which copies an object target and
turns the primitive leaves occurring in configuration documents (numbers,
booleans; strings with index boxing are not distinguished here) into the
empty object. -/
def deepMerge : JVal → JVal → JVal
  | .obj t, .obj s => .obj (mergeKeys t t s)
  | .obj t, .num _ => .obj t
  | .obj t, .str _ => .obj t
  | .obj t, .bool _ => .obj t
  | .num _, _ => .obj []
  | .str _, _ => .obj []
  | .bool _, _ => .obj []

/-- The `Object.keys(source).forEach` loop of `deepMerge`: `orig` is the
original target (consulted by `key in target` and `target[key]`), `out` the
accumulating output object. -/
def mergeKeys (orig out : List (String × JVal)) :
    List (String × JVal) → List (String × JVal)
  | [] => out
  | (key, sv) :: rest =>
    mergeKeys orig
      (if isObject sv then
        match lookupField orig key with
        | none => setField out key sv
        | some tv => setField out key (deepMerge tv sv)
      else setField out key sv)
      rest

end

/-- JS property read `v.key`, `none` when absent or not an object. -/
def jget (v : JVal) (key : String) : Option JVal :=
  match v with
  | .obj fields => lookupField fields key
  | _ => none

/-- Chained JS property read on a possibly-undefined value. -/
def oget (o : Option JVal) (key : String) : Option JVal :=
  match o with
  | some v => jget v key
  | none => none

/-- Path read, for stating what a stored document contains. -/
def getPath (v : JVal) (keys : List String) : Option JVal :=
  keys.foldl oget (some v)

/-- JS truthiness of a possibly-undefined value (`undefined`, `0`, `""` and
`false` are falsy). -/
def truthy : Option JVal → Bool
  | none => false
  | some (.num q) => decide (q ≠ 0)
  | some (.str s) => decide (s ≠ "")
  | some (.bool b) => b
  | some (.obj _) => true

/-- Numeric view of a possibly-undefined value. -/
def asNum : Option JVal → Option ℚ
  | some (.num q) => some q
  | _ => none

/-- JS `x >= y` on configuration fields: numeric comparison when both are
numbers; comparison involving `undefined` is false (the compared fields of a
configuration document are numbers). -/
def jge (a b : Option JVal) : Bool :=
  match asNum a, asNum b with
  | some x, some y => decide (x ≥ y)
  | _, _ => false

/-- JS `x < y`, same regime as `jge`. -/
def jlt (a b : Option JVal) : Bool :=
  match asNum a, asNum b with
  | some x, some y => decide (x < y)
  | _, _ => false

/-- JS `x > y`, same regime as `jge`. -/
def jgt (a b : Option JVal) : Bool :=
  match asNum a, asNum b with
  | some x, some y => decide (x > y)
  | _, _ => false

/-- `validateConfig` (source lines 365-429): the `errors` array accumulated
by the sequence of guarded `errors.push(...)` statements, in source order.
The update is valid exactly when this list is empty. -/
def validateConfig (config : JVal) : List String :=
  (let t := jget config "thresholds"
   if truthy t then
     (let te := oget t "temperature"
      if truthy te then
        (if jge (oget te "idealMin") (oget te "idealMax") then
          ["Temperature idealMin must be less than idealMax"] else [])
        ++ (if jge (oget te "criticalMin") (oget te "criticalMax") then
          ["Temperature criticalMin must be less than criticalMax"] else [])
      else [])
     ++ (let th := oget t "humidity"
        if truthy th then
          (if jge (oget th "idealMin") (oget th "idealMax") then
            ["Humidity idealMin must be less than idealMax"] else [])
          ++ (if jlt (oget th "idealMin") (some (.num 0)) ||
                jgt (oget th "idealMax") (some (.num 100)) then
            ["Humidity values must be between 0 and 100"] else [])
        else [])
     ++ (let ts := oget t "spoilageRisk"
        if truthy ts then
          (if jge (oget ts "low") (oget ts "medium") ||
              jge (oget ts "medium") (oget ts "high") then
            ["Spoilage risk thresholds must be in ascending order"] else [])
        else [])
   else [])
  ++ (let al := jget config "alerts"
     if truthy al then
       (if truthy (oget al "buzzerDuration") &&
           jlt (oget al "buzzerDuration") (some (.num 0)) then
         ["Buzzer duration must be positive"] else [])
       ++ (if truthy (oget al "criticalRiskThreshold") &&
             (jlt (oget al "criticalRiskThreshold") (some (.num 0)) ||
              jgt (oget al "criticalRiskThreshold") (some (.num 100))) then
         ["Critical risk threshold must be between 0 and 100"] else [])
     else [])
  ++ (let dc := jget config "dataCollection"
     if truthy dc then
       (if truthy (oget dc "sampleInterval") &&
           jlt (oget dc "sampleInterval") (some (.num 1000)) then
         ["Sample interval must be at least 1000ms"] else [])
       ++ (if truthy (oget dc "autoRefreshInterval") &&
             jlt (oget dc "autoRefreshInterval") (some (.num 1000)) then
         ["Auto refresh interval must be at least 1000ms"] else [])
       ++ (if truthy (oget dc "dataRetentionDays") &&
             jlt (oget dc "dataRetentionDays") (some (.num 1)) then
         ["Data retention must be at least 1 day"] else [])
     else [])

/-- `getDefaultConfig` (source lines 45-110) as a JSON document. -/
def getDefaultConfig : JVal :=
  .obj [
    ("thresholds", .obj [
      ("temperature", .obj [
        ("idealMin", .num 4), ("idealMax", .num 8),
        ("warningMin", .num 3), ("warningMax", .num 12),
        ("criticalMin", .num 2), ("criticalMax", .num 15),
        ("unit", .str "°C")]),
      ("humidity", .obj [
        ("idealMin", .num 90), ("idealMax", .num 95),
        ("warningMin", .num 85), ("warningMax", .num 98),
        ("criticalMin", .num 80), ("criticalMax", .num 100),
        ("unit", .str "%")]),
      ("airQuality", .obj [
        ("good", .num 150), ("moderate", .num 300),
        ("poor", .num 500), ("veryPoor", .num 600),
        ("unit", .str "MQ135")]),
      ("spoilageRisk", .obj [
        ("low", .num 20), ("medium", .num 40),
        ("high", .num 70), ("critical", .num 85),
        ("unit", .str "%")]),
      ("condensation", .obj [
        ("dewPointDifference", .num 2), ("unit", .str "°C")])]),
    ("alerts", .obj [
      ("buzzerEnabled", .bool false), ("buzzerDuration", .num 1000),
      ("criticalRiskThreshold", .num 70),
      ("muteAfterAcknowledge", .bool false),
      ("soundPattern", .str "pulsing")]),
    ("dataCollection", .obj [
      ("sampleInterval", .num 30000), ("autoRefreshInterval", .num 5000),
      ("dataRetentionDays", .num 30), ("historySize", .num 10),
      ("unit", .str "milliseconds")]),
    ("display", .obj [
      ("chartMaxPoints", .num 50), ("chartTimeRange", .num 24),
      ("showAdvancedMetrics", .bool false),
      ("temperatureUnit", .str "celsius")]),
    ("system", .obj [
      ("apiKey", .str "demo123"), ("port", .num 3000),
      ("allowRemoteAccess", .bool true)])]

/-- The `PUT /api/config` handler's state change (source lines 271-309):
deep-merge the update into the current document, then store the merged
document only if `validateConfig` reports no errors, otherwise keep the
current one. -/
def putConfig (current updates : JVal) : JVal :=
  let updatedConfig := deepMerge current updates
  if validateConfig updatedConfig = [] then updatedConfig else current

/-- A partial update that lowers `thresholds.spoilageRisk.critical` to 30,
below the `high` tier 70, violating the strictly-ascending risk-tier
invariant of the data model. -/
def riskTierUpdate : JVal :=
  .obj [("thresholds", .obj [("spoilageRisk", .obj [("critical", .num 30)])])]

/-- A JavaScript value as destructured from a request body: an absent field
(`undefined`), JSON `null`, a boolean, a finite number (exact rational), or a
string.  Array and object field values, which coerce through their string
form, are not modelled. -/
inductive JsVal where
  | undef
  | null
  | bool (b : Bool)
  | num (q : ℚ)
  | str (s : String)
  deriving DecidableEq, Repr

/-- JS truthiness (`undefined`, `null`, `false`, `0` and `""` are falsy). -/
def jsTruthy : JsVal → Bool
  | .undef => false
  | .null => false
  | .bool b => b
  | .num q => decide (q ≠ 0)
  | .str s => decide (s ≠ "")

/-- JS `x || d`: the value itself when truthy, otherwise the default. -/
def orDefault (v d : JsVal) : JsVal := if jsTruthy v then v else d

/-- The whitespace characters stripped by `parseFloat`/`parseInt` (the
common ASCII ones; exotic Unicode spaces are not modelled). -/
def isWs (c : Char) : Bool :=
  c = ' ' || c = '\t' || c = '\n' || c = '\r'

/-- Value of a digit string. -/
def digitsVal (ds : List Char) : ℕ :=
  ds.foldl (fun acc c => acc * 10 + (c.toNat - '0'.toNat)) 0

/-- JS `parseFloat` on a string: parse the longest decimal-literal prefix
(optional sign, digits, optional fraction, optional exponent) after leading
whitespace; `none` models `NaN` (no digits at all).  Finite decimal
semantics; the `Infinity` literals and binary-double rounding are not
modelled. -/
def jsParseFloat (s : String) : Option ℚ :=
  let cs := s.data.dropWhile isWs
  let (sign, cs) :=
    match cs with
    | '-' :: rest => ((-1 : ℚ), rest)
    | '+' :: rest => ((1 : ℚ), rest)
    | _ => ((1 : ℚ), cs)
  let intDigits := cs.takeWhile Char.isDigit
  let cs := cs.dropWhile Char.isDigit
  let (fracDigits, cs) :=
    match cs with
    | '.' :: rest => (rest.takeWhile Char.isDigit, rest.dropWhile Char.isDigit)
    | _ => (([] : List Char), cs)
  if intDigits = [] ∧ fracDigits = [] then none
  else
    let mantissa : ℚ :=
      (digitsVal intDigits : ℚ) + (digitsVal fracDigits : ℚ) / 10 ^ fracDigits.length
    let expv : ℤ :=
      match cs with
      | e :: rest =>
        if e = 'e' ∨ e = 'E' then
          match rest with
          | '-' :: rest2 =>
            let ds := rest2.takeWhile Char.isDigit
            if ds = [] then 0 else -(digitsVal ds : ℤ)
          | '+' :: rest2 =>
            let ds := rest2.takeWhile Char.isDigit
            if ds = [] then 0 else (digitsVal ds : ℤ)
          | rest2 =>
            let ds := rest2.takeWhile Char.isDigit
            if ds = [] then 0 else (digitsVal ds : ℤ)
        else 0
      | [] => 0
    some (sign * mantissa * (10 : ℚ) ^ expv)

/-- JS `parseFloat(x) || 0` as applied by the ingestion endpoint: numbers
pass through (their string form re-parses to the same finite decimal),
strings are prefix-parsed, and everything else (missing fields, `null`,
booleans — whose string forms have no numeric prefix) coerces to `NaN` and
hence, like a parse failure, is replaced by the `|| 0` default. -/
def parseFloatOr0 (v : JsVal) : ℚ :=
  match v with
  | .num q => q
  | .str s =>
    match jsParseFloat s with
    | some q => q
    | none => 0
  | _ => 0

/-- Truncation toward zero, the integer part taken by `parseInt` on a
number's string form. -/
def jsTrunc (q : ℚ) : ℤ := if q ≥ 0 then ⌊q⌋ else ⌈q⌉

/-- JS `parseInt` (radix 10) on a string: longest integer prefix after
whitespace and optional sign; `none` models `NaN`. -/
def jsParseInt (s : String) : Option ℤ :=
  let cs := s.data.dropWhile isWs
  let (sign, cs) :=
    match cs with
    | '-' :: rest => ((-1 : ℤ), rest)
    | '+' :: rest => ((1 : ℤ), rest)
    | _ => ((1 : ℤ), cs)
  let ds := cs.takeWhile Char.isDigit
  if ds = [] then none else some (sign * (digitsVal ds : ℤ))

/-- JS `parseInt(x) || 0` as applied to the `rssi` field. -/
def parseIntOr0 (v : JsVal) : ℤ :=
  match v with
  | .num q => jsTrunc q
  | .str s =>
    match jsParseInt s with
    | some n => n
    | none => 0
  | _ => 0

/-- The destructured `req.body` of `POST /api/data` (source lines 197-201). -/
structure IngestBody where
  deviceId : JsVal
  temperature : JsVal
  humidity : JsVal
  mq_value : JsVal
  spoilageRisk : JsVal
  grainHealth : JsVal
  dewPoint : JsVal
  absoluteHumidity : JsVal
  vaporPressureDeficit : JsVal
  equilibriumMoistureContent : JsVal
  trendAnalysis : JsVal
  prediction : JsVal
  rssi : JsVal
  ip : JsVal
  deriving DecidableEq, Repr

/-- The row inserted by `POST /api/data`. -/
structure InsertRow where
  deviceId : JsVal
  temperature : ℚ
  humidity : ℚ
  mq_value : ℚ
  spoilageRisk : ℚ
  grainHealth : JsVal
  dewPoint : ℚ
  absoluteHumidity : ℚ
  vaporPressureDeficit : ℚ
  equilibriumMoistureContent : ℚ
  trendAnalysis : JsVal
  prediction : JsVal
  rssi : ℤ
  ip : JsVal
  deriving DecidableEq, Repr

/-- The value coercions of the `db.run` parameter list of `POST /api/data`
(source lines 211-226): a total function of the body — the handler reaches
the insert for every body and fails only on a database error. -/
def postApiData (body : IngestBody) : InsertRow where
  deviceId := orDefault body.deviceId (.str "unknown")
  temperature := parseFloatOr0 body.temperature
  humidity := parseFloatOr0 body.humidity
  mq_value := parseFloatOr0 body.mq_value
  spoilageRisk := parseFloatOr0 body.spoilageRisk
  grainHealth := orDefault body.grainHealth (.str "UNKNOWN")
  dewPoint := parseFloatOr0 body.dewPoint
  absoluteHumidity := parseFloatOr0 body.absoluteHumidity
  vaporPressureDeficit := parseFloatOr0 body.vaporPressureDeficit
  equilibriumMoistureContent := parseFloatOr0 body.equilibriumMoistureContent
  trendAnalysis := orDefault body.trendAnalysis (.str "INSUFFICIENT_DATA")
  prediction := orDefault body.prediction (.str "NEED_MORE_DATA")
  rssi := parseIntOr0 body.rssi
  ip := orDefault body.ip (.str "unknown")

/-- A request body with every field absent. -/
def emptyBody : IngestBody where
  deviceId := .undef
  temperature := .undef
  humidity := .undef
  mq_value := .undef
  spoilageRisk := .undef
  grainHealth := .undef
  dewPoint := .undef
  absoluteHumidity := .undef
  vaporPressureDeficit := .undef
  equilibriumMoistureContent := .undef
  trendAnalysis := .undef
  prediction := .undef
  rssi := .undef
  ip := .undef

end Server

/-- Modelled from the spec: the classification-band mapping of §4.3, with the
rapid and slow cut points as parameters (the spec's bands use `1.0`/`0.3`).
Used to compare both deployments' label functions against one band shape. -/
noncomputable def bandLabel (rapidCut slowCut : ℝ) (slope : ℝ) : TrendLabel :=
  if slope > rapidCut then .RISING_RAPIDLY
  else if slope > slowCut then .RISING
  else if slope < -rapidCut then .FALLING_RAPIDLY
  else if slope < -slowCut then .FALLING
  else .STABLE

/-- The accumulated risk of `calculateSpoilageRisk` is the sum of its six
guarded penalty terms (the source's sequence of guarded `risk +=` statements),
clamped to at most 100. -/
lemma calculateSpoilageRisk_eq (cfg : Edge.Config) (temp hum : ℝ) :
    Edge.calculateSpoilageRisk cfg temp hum =
      min ((if temp > cfg.TEMP_CRITICAL_MAX then (temp - cfg.TEMP_CRITICAL_MAX) * 4
            else if temp > cfg.TEMP_WARNING_MAX then (temp - cfg.TEMP_WARNING_MAX) * 2
            else 0)
          + (if temp < cfg.TEMP_CRITICAL_MIN then (cfg.TEMP_CRITICAL_MIN - temp) * 3
             else if temp < cfg.TEMP_IDEAL_MIN then 10
             else 0)
          + (if hum < cfg.HUM_WARNING_MIN then (cfg.HUM_WARNING_MIN - hum) * 2 else 0)
          + (if hum > cfg.HUM_CRITICAL_MAX then (hum - cfg.HUM_CRITICAL_MAX) * 5
             else if hum > cfg.HUM_IDEAL_MAX then (hum - cfg.HUM_IDEAL_MAX) * 2
             else 0)
          + (if Edge.calculateDewPoint temp hum > temp - cfg.DEW_POINT_DIFF then 40 else 0)
          + (if temp > cfg.TEMP_IDEAL_MAX then (temp - cfg.TEMP_IDEAL_MAX) * 1.5 else 0))
        100 := by
  unfold Edge.calculateSpoilageRisk
  simp only []
  congr 1
  ring

/-- Bounds on `log 0.92`, used to settle the condensation guard at the
scenario input `T = 14 °C`, `RH = 92 %`. -/
lemma log_092_bounds : -0.13 < Real.log (92 / 100) ∧ Real.log (92 / 100) < 0 := by
  constructor
  · have h1 : (1.13 : ℝ) ≤ Real.exp 0.13 := by
      have := Real.add_one_le_exp (0.13 : ℝ); linarith
    have hmul : Real.exp (-0.13) * Real.exp 0.13 = 1 := by
      rw [← Real.exp_add]; norm_num
    have h2 : Real.exp (-0.13) < 92 / 100 := by
      nlinarith [Real.exp_pos (-0.13 : ℝ), Real.exp_pos (0.13 : ℝ)]
    have h3 := Real.log_lt_log (Real.exp_pos (-0.13)) h2
    rwa [Real.log_exp] at h3
  · exact Real.log_neg (by norm_num) (by norm_num)

/-- At 14 °C and 92 % RH the Magnus dew point exceeds 12 °C, i.e. exceeds
`temperature − dewPointDifference` for the reference default `2`. -/
lemma dewPoint_14_92_gt_12 : (12 : ℝ) < Edge.calculateDewPoint 14 92 := by
  obtain ⟨hlb, hub⟩ := log_092_bounds
  unfold Edge.calculateDewPoint
  simp only []
  have hA : ((17.27 : ℝ) * 14) / (237.7 + 14) = 24178 / 25170 := by norm_num
  set L := Real.log ((92 : ℝ) / 100) with hL
  rw [hA]
  have hden : (0 : ℝ) < 17.27 - (24178 / 25170 + L) := by linarith
  rw [lt_div_iff₀ hden]
  linarith

/-- C1: for temperature 14 °C and humidity 92 % with the reference default
thresholds, the additive risk pipeline scores 53 (temperature-warning term 4,
condensation term 40, sprouting term 9), the condensation term fires because
the Magnus dew point exceeds `temperature − dewPointDifference = 12`, the
score lands strictly above the medium tier 40 and at or below the high tier
70, and the health classification is `WARNING`. -/
theorem C1_scenario_14_92_warning :
    Edge.calculateSpoilageRisk Edge.defaultConfig 14 92 = 53 ∧
    Edge.calculateDewPoint 14 92 > 14 - Edge.defaultConfig.DEW_POINT_DIFF ∧
    Edge.defaultConfig.RISK_MEDIUM < Edge.calculateSpoilageRisk Edge.defaultConfig 14 92 ∧
    Edge.calculateSpoilageRisk Edge.defaultConfig 14 92 ≤ Edge.defaultConfig.RISK_HIGH ∧
    Edge.determineGrainHealth Edge.defaultConfig
      (Edge.calculateSpoilageRisk Edge.defaultConfig 14 92) = .WARNING := by
  have hdp := dewPoint_14_92_gt_12
  have hrisk : Edge.calculateSpoilageRisk Edge.defaultConfig 14 92 = 53 := by
    rw [calculateSpoilageRisk_eq]
    norm_num [Edge.defaultConfig, hdp, min_def]
  refine ⟨hrisk, ?_, ?_, ?_, ?_⟩
  · show _ > (14 : ℝ) - Edge.defaultConfig.DEW_POINT_DIFF
    simp only [Edge.defaultConfig]
    norm_num
    linarith
  · rw [hrisk]; norm_num [Edge.defaultConfig]
  · rw [hrisk]; norm_num [Edge.defaultConfig]
  · rw [hrisk]
    unfold Edge.determineGrainHealth
    norm_num [Edge.defaultConfig]

set_option maxHeartbeats 1000000 in
/-- C2: for every configuration and every real temperature/humidity input the
spoilage risk score lies in `[0, 100]`: every penalty term is non-negative
under its guard, and the final `min risk 100` clamps from above; at the
extreme input `T = 200`, `RH = 200` with the default thresholds the score is
exactly 100. -/
theorem C2_risk_clamped :
    (∀ (cfg : Edge.Config) (temp hum : ℝ),
        0 ≤ Edge.calculateSpoilageRisk cfg temp hum ∧
        Edge.calculateSpoilageRisk cfg temp hum ≤ 100) ∧
    Edge.calculateSpoilageRisk Edge.defaultConfig 200 200 = 100 := by
  constructor
  · intro cfg temp hum
    constructor
    · rw [calculateSpoilageRisk_eq]
      refine le_min ?_ (by norm_num)
      split_ifs <;> linarith
    · rw [calculateSpoilageRisk_eq]
      exact min_le_right _ _
  · rw [calculateSpoilageRisk_eq]
    simp only [Edge.defaultConfig]
    norm_num
    by_cases hdp : (198 : ℝ) < Edge.calculateDewPoint 200 200
    · rw [if_pos hdp]; norm_num [min_def]
    · rw [if_neg hdp]; norm_num [min_def]

/-- C3: with trigger threshold 70 and stop threshold `70 − 20 = 50`, a risk
value strictly between the stop and trigger thresholds never moves the alarm
out of the Active state; the machine leaves Active only when risk falls to or
below the stop threshold; and the risk sequence `[72, 60, 55, 65, 58]` fed
from Idle leaves the machine Active after every step from the first onward. -/
theorem C3_alarm_dead_band :
    (∀ risk : ℝ, Edge.alarmStopThreshold 70 < risk → risk < 70 →
        Edge.alarmStep 70 (Edge.alarmStopThreshold 70) true risk = true) ∧
    (∀ risk : ℝ, Edge.alarmStep 70 (Edge.alarmStopThreshold 70) true risk = false →
        risk ≤ Edge.alarmStopThreshold 70) ∧
    List.scanl (Edge.alarmStep 70 (Edge.alarmStopThreshold 70)) false [72, 60, 55, 65, 58] =
      [false, true, true, true, true, true] := by
  refine ⟨?_, ?_, ?_⟩
  · intro risk h1 h2
    simp only [Edge.alarmStopThreshold] at h1
    have h3 : ¬ (risk ≤ (70 : ℝ) - 20) := by linarith
    simp [Edge.alarmStep, Edge.alarmStopThreshold, h3]
  · intro risk h
    by_contra hc
    push_neg at hc
    simp only [Edge.alarmStopThreshold] at hc
    have h3 : ¬ (risk ≤ (70 : ℝ) - 20) := by linarith
    simp [Edge.alarmStep, Edge.alarmStopThreshold, h3] at h
  · norm_num [List.scanl, Edge.alarmStep, Edge.alarmStopThreshold]

/-- C3 witness: the dead-band conjunct applied at the concrete risk value 60,
and the Active-to-Idle conjunct applied to a concrete hypothesis. -/
theorem C3_alarm_dead_band_witness :
    Edge.alarmStep 70 (Edge.alarmStopThreshold 70) true 60 = true :=
  C3_alarm_dead_band.1 60 (by norm_num [Edge.alarmStopThreshold]) (by norm_num)

/-- C4 counterexample: at estimated slope `0.9` the aggregation server's
label function reports `RISING` while the edge agent's trend analysis
reports `RISING_RAPIDLY` (its rapid cut point is `0.8`, not `1.0`), so the
two deployments do not use the same band cut points. -/
theorem C4_counterexample :
    Server.getTrendLabel (9 / 10) = .RISING ∧
    Edge.analyzeTrendsLabel (9 / 10) = .RISING_RAPIDLY ∧
    Server.getTrendLabel (9 / 10) ≠ Edge.analyzeTrendsLabel (9 / 10) := by
  have h1 : Server.getTrendLabel (9 / 10) = .RISING := by
    unfold Server.getTrendLabel
    norm_num
  have h2 : Edge.analyzeTrendsLabel (9 / 10) = .RISING_RAPIDLY := by
    unfold Edge.analyzeTrendsLabel
    rw [abs_of_pos (by norm_num : (0 : ℝ) < 9 / 10)]
    norm_num
  refine ⟨h1, h2, ?_⟩
  rw [h1, h2]
  simp

/-- C4 amended: the aggregation server's label function uses the claimed
bands (rapid cut `1.0`, slow cut `0.3`), but the edge agent's trend analysis
uses rapid cut `0.8` with the same slow cut `0.3`, so the two deployments
agree on the `±0.3` cut points while their rapid cut points differ. -/
theorem C4_band_cutpoints_amended :
    (∀ s : ℝ, Server.getTrendLabel s = bandLabel 1.0 0.3 s) ∧
    (∀ s : ℝ, Edge.analyzeTrendsLabel s = bandLabel 0.8 0.3 s) := by
  constructor
  · intro s
    rfl
  · intro s
    by_cases h1 : |s| < 0.3
    · have h2 := abs_lt.mp h1
      simp only [Edge.analyzeTrendsLabel, bandLabel, if_pos h1]
      rw [if_neg (by linarith), if_neg (by linarith), if_neg (by linarith),
        if_neg (by linarith)]
    · simp only [Edge.analyzeTrendsLabel, bandLabel, if_neg h1]

/-- Dropping fewer elements than the length preserves the last element. -/
lemma getLast?_drop_of_lt {α : Type} :
    ∀ (l : List α) (k : ℕ), k < l.length → (l.drop k).getLast? = l.getLast?
  | [], k, h => by simp at h
  | _ :: _, 0, _ => rfl
  | a :: t, k + 1, h => by
    cases t with
    | nil => simp at h
    | cons b t' =>
      have ih := getLast?_drop_of_lt (b :: t') k (by simpa using h)
      simpa using ih

/-- C5 counterexample: a four-sample series whose latest gas reading is 400
(strictly between the hardcoded 300 and the "poor" threshold 500) is reported
as an air-quality decline, although 400 does not exceed the default "poor"
threshold 500. -/
theorem C5_counterexample :
    Server.airQualityDeclineDetected
      [⟨0, 0, some 100, none⟩, ⟨0, 0, some 100, none⟩,
       ⟨0, 0, some 100, none⟩, ⟨0, 0, some 400, none⟩] ∧
    (Server.mqValues
      [⟨0, 0, some 100, none⟩, ⟨0, 0, some 100, none⟩,
       ⟨0, 0, some 100, none⟩, ⟨0, 0, some 400, none⟩]).getLastD 0 = 400 ∧
    ¬ ((400 : ℝ) > 500) := by
  refine ⟨⟨?_, ?_⟩, ?_, by norm_num⟩ <;>
    norm_num [Server.airQualityDeclineDetected, Server.mqValues, Server.recentData]

/-- C5 amended: the pattern detector reports a gas decline exactly when at
least 4 samples exist (within the trailing at-most-10-sample window this is
the same as at least 4 rows) and the latest gas reading exceeds the hardcoded
value 300 — the default "moderate" air-quality threshold, not the "poor"
threshold 500 named by the claim. -/
theorem C5_gas_decline_amended (rows : List Server.Row) :
    Server.airQualityDeclineDetected rows ↔
      rows.length > 3 ∧
        (rows.map (fun d => d.mq_value.getD 0)).getLastD 0 > 300 := by
  unfold Server.airQualityDeclineDetected Server.mqValues Server.recentData
  rw [List.length_map, List.length_drop]
  constructor
  · rintro ⟨h1, h2⟩
    have hlen : rows.length > 3 := by omega
    refine ⟨hlen, ?_⟩
    rw [List.getLastD_eq_getLast?, List.getLast?_map] at h2 ⊢
    rwa [getLast?_drop_of_lt rows (rows.length - 10) (by omega)] at h2
  · rintro ⟨h1, h2⟩
    refine ⟨by omega, ?_⟩
    rw [List.getLastD_eq_getLast?, List.getLast?_map] at h2 ⊢
    rwa [getLast?_drop_of_lt rows (rows.length - 10) (by omega)]

/-- C5 amended witness: the amended equivalence applied to the concrete
four-sample series of the counterexample input shape with latest reading
350. -/
theorem C5_gas_decline_amended_witness :
    Server.airQualityDeclineDetected
      [⟨0, 0, some 100, none⟩, ⟨0, 0, some 100, none⟩,
       ⟨0, 0, some 100, none⟩, ⟨0, 0, some 350, none⟩] :=
  (C5_gas_decline_amended _).mpr
    ⟨by norm_num, by norm_num⟩

/-- C6: the predictor's `timeToCritical` is non-null exactly when the
per-sample risk change is strictly positive; when defined it equals
`round((70 − latestRisk)/Δrisk)` floored at 1 (70 being the hardcoded
critical threshold, equal to the reference default `criticalRiskThreshold`);
for non-positive change it is `null`. -/
theorem C6_time_to_critical (latestRisk riskChange : ℝ) :
    (Server.timeToCritical latestRisk riskChange ≠ none ↔ riskChange > 0) ∧
    (riskChange > 0 →
      Server.timeToCritical latestRisk riskChange =
        some (max 1 (round ((70 - latestRisk) / riskChange)))) ∧
    (riskChange ≤ 0 → Server.timeToCritical latestRisk riskChange = none) := by
  unfold Server.timeToCritical
  refine ⟨⟨?_, ?_⟩, ?_, ?_⟩
  · intro h
    by_contra hc
    rw [if_neg hc] at h
    exact h rfl
  · intro h
    rw [if_pos h]
    simp
  · intro h
    rw [if_pos h]
  · intro h
    rw [if_neg (not_lt.mpr h)]

/-- C6 witness: the defined case at latest risk 60 and change 5, and the
null case at change −1. -/
theorem C6_time_to_critical_witness :
    Server.timeToCritical 60 5 = some (max 1 (round (((70 : ℝ) - 60) / 5))) ∧
    Server.timeToCritical 60 (-1) = none :=
  ⟨(C6_time_to_critical 60 5).2.1 (by norm_num),
   (C6_time_to_critical 60 (-1)).2.2 (by norm_num)⟩

/-- Inserting an entry along `recLE` keeps every priority class's sublist
unchanged except for prepending the entry to its own class: the entry lands
before the first element of rank at least its own, hence before every element
of equal priority. -/
lemma filter_orderedInsert (p : Server.Priority) (a : Server.Rec) :
    ∀ l : List Server.Rec,
      (List.orderedInsert Server.recLE a l).filter (fun r => decide (r.priority = p)) =
        if a.priority = p then
          a :: l.filter (fun r => decide (r.priority = p))
        else l.filter (fun r => decide (r.priority = p))
  | [] => by
    simp only [List.orderedInsert, List.filter]
    by_cases hap : a.priority = p
    · simp [hap]
    · simp [hap]
  | b :: t => by
    by_cases hab : Server.recLE a b
    · rw [List.orderedInsert_of_le Server.recLE t hab]
      by_cases hap : a.priority = p
      · simp [List.filter, hap]
      · simp [List.filter, hap]
    · have hstep : List.orderedInsert Server.recLE a (b :: t) =
          b :: List.orderedInsert Server.recLE a t := by
        simp only [List.orderedInsert, if_neg hab]
      rw [hstep]
      by_cases hap : a.priority = p
      · have hbp : ¬ b.priority = p := by
          intro hbp
          exact hab (by simp only [Server.recLE, hap, hbp]; exact le_refl _)
        simp only [List.filter, decide_eq_true_eq, hap, hbp, if_pos, if_neg,
          decide_eq_false hbp, filter_orderedInsert p a t, if_pos hap]
        simp [decide_eq_true hap]
      · by_cases hbp : b.priority = p
        · simp only [List.filter, decide_eq_true hbp, filter_orderedInsert p a t,
            if_neg hap]
        · simp only [List.filter, decide_eq_false hbp, filter_orderedInsert p a t,
            if_neg hap]

/-- Insertion sort along `recLE` is stable: it preserves each priority
class's subsequence. -/
lemma filter_insertionSort (p : Server.Priority) :
    ∀ l : List Server.Rec,
      (List.insertionSort Server.recLE l).filter (fun r => decide (r.priority = p)) =
        l.filter (fun r => decide (r.priority = p))
  | [] => rfl
  | a :: t => by
    simp only [List.insertionSort, filter_orderedInsert p a,
      filter_insertionSort p t]
    by_cases hap : a.priority = p
    · simp [List.filter, hap]
    · simp [List.filter, hap]

/-- C8: the recommendation list is sorted by priority rank
`CRITICAL < HIGH < MEDIUM < LOW`, it is a permutation of the entries of all
matching rules (no rule suppresses another), and entries of equal priority
keep their rule-evaluation order (the sort preserves each priority class's
subsequence); in particular a CRITICAL entry always precedes a LOW entry. -/
theorem C8_recommendations_sorted_stable (temp hum risk mq dewPoint : ℝ)
    (riskTrend : TrendLabel) :
    List.Sorted Server.recLE
      (Server.generatePrioritizedRecommendations temp hum risk mq dewPoint riskTrend) ∧
    (Server.generatePrioritizedRecommendations temp hum risk mq dewPoint riskTrend).Perm
      (Server.rawRecommendations temp hum risk mq dewPoint riskTrend) ∧
    (∀ p : Server.Priority,
      (Server.generatePrioritizedRecommendations temp hum risk mq dewPoint
          riskTrend).filter (fun r => decide (r.priority = p)) =
        (Server.rawRecommendations temp hum risk mq dewPoint riskTrend).filter
          (fun r => decide (r.priority = p))) :=
  ⟨List.sorted_insertionSort Server.recLE _,
   List.perm_insertionSort Server.recLE _,
   fun p => filter_insertionSort p _⟩

/-- C9: holding the trend results and pattern detections fixed, the
confidence score is non-decreasing in the sample count (the data-volume term
steps 10 → 25 → 40 at more than 10 and more than 20 samples), and hence the
confidence level (low < medium < high) never decreases either. -/
theorem C9_confidence_monotone (n1 n2 : ℕ) (trends : List TrendLabel)
    (patterns : List Bool) (h : n1 ≤ n2) :
    Server.confidenceScore n1 trends patterns ≤
      Server.confidenceScore n2 trends patterns ∧
    (Server.calculateConfidenceWithFactors n1 trends patterns).1.rank ≤
      (Server.calculateConfidenceWithFactors n2 trends patterns).1.rank := by
  have hvol : Server.dataVolumeScore n1 ≤ Server.dataVolumeScore n2 := by
    unfold Server.dataVolumeScore
    split_ifs <;> omega
  have hscore : Server.confidenceScore n1 trends patterns ≤
      Server.confidenceScore n2 trends patterns := by
    unfold Server.confidenceScore
    omega
  refine ⟨hscore, ?_⟩
  unfold Server.calculateConfidenceWithFactors Server.confidenceLevel
  set s1 := Server.confidenceScore n1 trends patterns
  set s2 := Server.confidenceScore n2 trends patterns
  split_ifs <;> simp_all [Server.ConfLevel.rank] <;> omega

/-- C9 witness: the monotonicity applied at 10 and 25 samples with empty
trend and pattern inputs. -/
theorem C9_confidence_monotone_witness :
    Server.confidenceScore 10 [] [] ≤ Server.confidenceScore 25 [] [] ∧
    (Server.calculateConfidenceWithFactors 10 [] []).1.rank ≤
      (Server.calculateConfidenceWithFactors 25 [] []).1.rank :=
  C9_confidence_monotone 10 25 [] [] (by decide)

/-- Writing a key then reading it back yields the written value. -/
lemma lookupField_setField_self :
    ∀ (l : List (String × Server.JVal)) (key : String) (v : Server.JVal),
      Server.lookupField (Server.setField l key v) key = some v
  | [], key, v => by simp [Server.setField, Server.lookupField]
  | (k, w) :: rest, key, v => by
    by_cases h : k = key
    · simp [Server.setField, h, Server.lookupField]
    · simp [Server.setField, h, Server.lookupField,
        lookupField_setField_self rest key v]

/-- Writing one key leaves every other key's value unchanged. -/
lemma lookupField_setField_ne :
    ∀ (l : List (String × Server.JVal)) (key k' : String) (v : Server.JVal),
      key ≠ k' →
      Server.lookupField (Server.setField l key v) k' = Server.lookupField l k'
  | [], key, k', v, h => by simp [Server.setField, Server.lookupField, h]
  | (k, w) :: rest, key, k', v, h => by
    by_cases hk : k = key
    · subst hk
      simp [Server.setField, Server.lookupField, h, Ne.symm h]
    · simp [Server.setField, hk, Server.lookupField,
        lookupField_setField_ne rest key k' v h]

/-- A key outside an object's key set reads as `undefined`. -/
lemma lookupField_eq_none :
    ∀ (l : List (String × Server.JVal)) (key : String),
      key ∉ l.map Prod.fst → Server.lookupField l key = none
  | [], _, _ => rfl
  | (k, v) :: rest, key, h => by
    simp only [List.map_cons, List.mem_cons, not_or] at h
    simp [Server.lookupField, Ne.symm h.1, lookupField_eq_none rest key h.2]

/-- Per-key behaviour of the `deepMerge` key loop, relative to the original
target `orig` and the accumulated output `acc`. -/
lemma lookupField_mergeKeys (orig : List (String × Server.JVal)) :
    ∀ (s acc : List (String × Server.JVal)) (key : String),
      (s.map Prod.fst).Nodup →
      Server.lookupField (Server.mergeKeys orig acc s) key =
        match Server.lookupField s key with
        | none => Server.lookupField acc key
        | some sv =>
          if Server.isObject sv then
            match Server.lookupField orig key with
            | none => some sv
            | some tv => some (Server.deepMerge tv sv)
          else some sv := by
  intro s
  induction s with
  | nil =>
    intro acc key _
    simp [Server.mergeKeys, Server.lookupField]
  | cons head rest ih =>
    obtain ⟨k, sv⟩ := head
    intro acc key hnd
    have hnd' : (rest.map Prod.fst).Nodup := (List.nodup_cons.mp hnd).2
    have hk_not : k ∉ rest.map Prod.fst := (List.nodup_cons.mp hnd).1
    rw [show Server.mergeKeys orig acc ((k, sv) :: rest) =
        Server.mergeKeys orig
          (if Server.isObject sv then
            match Server.lookupField orig k with
            | none => Server.setField acc k sv
            | some tv => Server.setField acc k (Server.deepMerge tv sv)
          else Server.setField acc k sv) rest from rfl]
    rw [ih _ key hnd']
    by_cases hkey : k = key
    · subst hkey
      have h0 : Server.lookupField ((k, sv) :: rest) k = some sv := by
        simp [Server.lookupField]
      have h1 : Server.lookupField rest k = none := lookupField_eq_none rest k hk_not
      rw [h1, h0]
      by_cases hobj : Server.isObject sv = true
      · simp only [hobj, if_true]
        cases hlo : Server.lookupField orig k with
        | none => simp [hlo, lookupField_setField_self]
        | some tv => simp [hlo, lookupField_setField_self]
      · simp only [Bool.not_eq_true] at hobj
        simp [hobj, lookupField_setField_self]
    · have h0 : Server.lookupField ((k, sv) :: rest) key = Server.lookupField rest key := by
        simp [Server.lookupField, hkey]
      rw [h0]
      have hA : Server.lookupField
          (if Server.isObject sv then
            match Server.lookupField orig k with
            | none => Server.setField acc k sv
            | some tv => Server.setField acc k (Server.deepMerge tv sv)
          else Server.setField acc k sv) key = Server.lookupField acc key := by
        by_cases hobj : Server.isObject sv = true
        · simp only [hobj, if_true]
          cases hlo : Server.lookupField orig k with
          | none => simp [hlo, lookupField_setField_ne _ _ _ _ hkey]
          | some tv => simp [hlo, lookupField_setField_ne _ _ _ _ hkey]
        · simp only [Bool.not_eq_true] at hobj
          simp [hobj, lookupField_setField_ne _ _ _ _ hkey]
      cases hrk : Server.lookupField rest key with
      | none => simp [hA]
      | some sv' => simp

/-- Modelled from the spec (§6 merge semantics): the per-key result of a
deep merge — a key provided by the update overrides (recursively for object
values over an object target), an absent key retains the prior value. -/
def specMergedField (t s : List (String × Server.JVal)) (key : String) :
    Option Server.JVal :=
  match Server.lookupField s key with
  | none => Server.lookupField t key
  | some sv =>
    if Server.isObject sv then
      match Server.lookupField t key with
      | none => some sv
      | some tv => some (Server.deepMerge tv sv)
    else some sv

/-- Membership in a guarded list block. -/
lemma mem_ite_list {c : Prop} [Decidable c] {l : List String} {a : String} :
    (a ∈ (if c then l else [])) ↔ (c ∧ a ∈ l) := by
  split_ifs with h <;> simp [h]

/-- C7 counterexample: merging the partial update that sets
`thresholds.spoilageRisk.critical` to 30 into the default configuration
yields a document whose risk tiers are not strictly ascending
(`high = 70 ≥ critical = 30`), yet `validateConfig` reports no error and the
update handler stores the merged document: the invariant-violating update is
not rejected. -/
theorem C7_counterexample :
    Server.validateConfig
      (Server.deepMerge Server.getDefaultConfig Server.riskTierUpdate) = [] ∧
    Server.getPath (Server.putConfig Server.getDefaultConfig Server.riskTierUpdate)
      ["thresholds", "spoilageRisk", "critical"] = some (.num 30) ∧
    Server.getPath (Server.putConfig Server.getDefaultConfig Server.riskTierUpdate)
      ["thresholds", "spoilageRisk", "high"] = some (.num 70) ∧
    ¬ ((70 : ℚ) < 30) :=
  ⟨rfl, rfl, rfl, by norm_num⟩

/-- C7 amended: configuration updates are deep-merged by key (provided values
override, recursively for object values; absent keys retain their prior
value), and an update whose merged document fails validation is not applied
(the stored configuration is unchanged); however, validation checks only a
subset of the data-model invariants — within the thresholds section exactly
the five guarded checks below, each reported independently of the others
(so all violated checked invariants are reported, not just the first), while
the warning-pair orderings, the `high < critical` tier ordering and the
warning/critical humidity bounds are never checked. -/
theorem C7_config_update_amended :
    (∀ (t s : List (String × Server.JVal)), (s.map Prod.fst).Nodup →
      ∀ key : String,
        Server.jget (Server.deepMerge (.obj t) (.obj s)) key =
          specMergedField t s key) ∧
    (∀ current updates : Server.JVal,
        Server.validateConfig (Server.deepMerge current updates) ≠ [] →
        Server.putConfig current updates = current) ∧
    (∀ config : Server.JVal,
        ("Temperature idealMin must be less than idealMax" ∈
            Server.validateConfig config ↔
          (Server.truthy (Server.jget config "thresholds") = true ∧
           Server.truthy (Server.oget (Server.jget config "thresholds")
             "temperature") = true ∧
           Server.jge
             (Server.oget (Server.oget (Server.jget config "thresholds")
               "temperature") "idealMin")
             (Server.oget (Server.oget (Server.jget config "thresholds")
               "temperature") "idealMax") = true)) ∧
        ("Temperature criticalMin must be less than criticalMax" ∈
            Server.validateConfig config ↔
          (Server.truthy (Server.jget config "thresholds") = true ∧
           Server.truthy (Server.oget (Server.jget config "thresholds")
             "temperature") = true ∧
           Server.jge
             (Server.oget (Server.oget (Server.jget config "thresholds")
               "temperature") "criticalMin")
             (Server.oget (Server.oget (Server.jget config "thresholds")
               "temperature") "criticalMax") = true)) ∧
        ("Humidity idealMin must be less than idealMax" ∈
            Server.validateConfig config ↔
          (Server.truthy (Server.jget config "thresholds") = true ∧
           Server.truthy (Server.oget (Server.jget config "thresholds")
             "humidity") = true ∧
           Server.jge
             (Server.oget (Server.oget (Server.jget config "thresholds")
               "humidity") "idealMin")
             (Server.oget (Server.oget (Server.jget config "thresholds")
               "humidity") "idealMax") = true)) ∧
        ("Humidity values must be between 0 and 100" ∈
            Server.validateConfig config ↔
          (Server.truthy (Server.jget config "thresholds") = true ∧
           Server.truthy (Server.oget (Server.jget config "thresholds")
             "humidity") = true ∧
           (Server.jlt (Server.oget (Server.oget (Server.jget config
               "thresholds") "humidity") "idealMin") (some (.num 0)) ||
            Server.jgt (Server.oget (Server.oget (Server.jget config
               "thresholds") "humidity") "idealMax") (some (.num 100)))
             = true)) ∧
        ("Spoilage risk thresholds must be in ascending order" ∈
            Server.validateConfig config ↔
          (Server.truthy (Server.jget config "thresholds") = true ∧
           Server.truthy (Server.oget (Server.jget config "thresholds")
             "spoilageRisk") = true ∧
           (Server.jge (Server.oget (Server.oget (Server.jget config
               "thresholds") "spoilageRisk") "low")
             (Server.oget (Server.oget (Server.jget config "thresholds")
               "spoilageRisk") "medium") ||
            Server.jge (Server.oget (Server.oget (Server.jget config
               "thresholds") "spoilageRisk") "medium")
             (Server.oget (Server.oget (Server.jget config "thresholds")
               "spoilageRisk") "high")) = true))) := by
  refine ⟨?_, ?_, ?_⟩
  · intro t s hnd key
    show Server.lookupField (Server.mergeKeys t t s) key = _
    rw [lookupField_mergeKeys t s t key hnd]
    rfl
  · intro current updates h
    unfold Server.putConfig
    simp only [if_neg h]
  · intro config
    refine ⟨?_, ?_, ?_, ?_, ?_⟩ <;>
      (unfold Server.validateConfig
       simp only [List.mem_append, mem_ite_list, List.mem_singleton,
         List.not_mem_nil, Bool.or_eq_true, Bool.and_eq_true]
       simp
       try tauto)

/-- C7 amended witness: the merge characterization applied to a concrete
two-key target and one-key update, the reject-keeps-state conjunct applied
to a concrete invalid update, and a membership equivalence applied to a
concrete violating document. -/
theorem C7_config_update_amended_witness :
    Server.jget (Server.deepMerge (.obj [("a", .num 1), ("b", .num 2)])
      (.obj [("b", .num 3)])) "b" = some (.num 3) ∧
    Server.putConfig (.obj [])
      (.obj [("alerts", .obj [("buzzerDuration", .num (-5))])]) = .obj [] ∧
    "Temperature idealMin must be less than idealMax" ∈
      Server.validateConfig (.obj [("thresholds", .obj [("temperature",
        .obj [("idealMin", .num 9), ("idealMax", .num 2)])])]) := by
  refine ⟨?_, ?_, ?_⟩
  · have h := C7_config_update_amended.1 [("a", .num 1), ("b", .num 2)]
      [("b", .num 3)] (by simp) "b"
    rw [h]
    rfl
  · exact C7_config_update_amended.2.1 _ _ (by decide)
  · exact ((C7_config_update_amended.2.2 _).1).mpr ⟨rfl, rfl, rfl⟩

/-- C10 counterexample: the string `"12abc"` is not a number, yet the
ingestion endpoint stores temperature 12 for it, not 0 — `parseFloat` parses
the numeric prefix of a malformed string, so not every non-numeric field
value is stored as 0. -/
theorem C10_counterexample :
    (Server.postApiData
      { Server.emptyBody with temperature := .str "12abc" }).temperature = 12 ∧
    ¬ ((12 : ℚ) = 0) := by
  constructor
  · show Server.parseFloatOr0 (.str "12abc") = 12
    simp [Server.parseFloatOr0, Server.jsParseFloat, Server.isWs, Server.digitsVal]
  · norm_num

/-- C10 amended: the ingestion endpoint is total over malformed bodies and
never rejects a reading for malformed field values (it fails only on a
database error) — for every body it produces exactly one insert row; a
missing numeric field, or a string field with no parseable numeric prefix,
is stored as 0, while a string with a numeric prefix stores that prefix's
parsed value (so a malformed string such as `"12abc"` stores 12, not 0);
missing string fields receive the defaults `"unknown"`, `"UNKNOWN"`,
`"INSUFFICIENT_DATA"` and `"NEED_MORE_DATA"`, and a missing `rssi` is stored
as 0.  (Temperature stands for the eight `parseFloat`-coerced columns, which
are all coerced by the same expression shape.) -/
theorem C10_ingestion_amended (body : Server.IngestBody) :
    ((body.temperature = .undef → (Server.postApiData body).temperature = 0) ∧
     (∀ s, body.temperature = .str s → Server.jsParseFloat s = none →
        (Server.postApiData body).temperature = 0) ∧
     (∀ s q, body.temperature = .str s → Server.jsParseFloat s = some q →
        (Server.postApiData body).temperature = q)) ∧
    (body.humidity = .undef → (Server.postApiData body).humidity = 0) ∧
    (body.mq_value = .undef → (Server.postApiData body).mq_value = 0) ∧
    (body.spoilageRisk = .undef → (Server.postApiData body).spoilageRisk = 0) ∧
    (body.dewPoint = .undef → (Server.postApiData body).dewPoint = 0) ∧
    (body.absoluteHumidity = .undef →
      (Server.postApiData body).absoluteHumidity = 0) ∧
    (body.vaporPressureDeficit = .undef →
      (Server.postApiData body).vaporPressureDeficit = 0) ∧
    (body.equilibriumMoistureContent = .undef →
      (Server.postApiData body).equilibriumMoistureContent = 0) ∧
    (body.rssi = .undef → (Server.postApiData body).rssi = 0) ∧
    (body.deviceId = .undef → (Server.postApiData body).deviceId = .str "unknown") ∧
    (body.grainHealth = .undef →
      (Server.postApiData body).grainHealth = .str "UNKNOWN") ∧
    (body.trendAnalysis = .undef →
      (Server.postApiData body).trendAnalysis = .str "INSUFFICIENT_DATA") ∧
    (body.prediction = .undef →
      (Server.postApiData body).prediction = .str "NEED_MORE_DATA") := by
  refine ⟨⟨?_, ?_, ?_⟩, ?_, ?_, ?_, ?_, ?_, ?_, ?_, ?_, ?_, ?_, ?_, ?_⟩
  · intro h
    simp [Server.postApiData, h, Server.parseFloatOr0]
  · intro s hs hn
    simp [Server.postApiData, hs, Server.parseFloatOr0, hn]
  · intro s q hs hq
    simp [Server.postApiData, hs, Server.parseFloatOr0, hq]
  all_goals
    intro h
    simp [Server.postApiData, h, Server.parseFloatOr0, Server.parseIntOr0,
      Server.orDefault, Server.jsTruthy]

/-- C10 amended witness: the amended facts applied to a body whose
temperature is the unparseable string `"abc"` and all other fields absent. -/
theorem C10_ingestion_amended_witness :
    (Server.postApiData
      { Server.emptyBody with temperature := .str "abc" }).temperature = 0 ∧
    (Server.postApiData
      { Server.emptyBody with temperature := .str "abc" }).deviceId =
      .str "unknown" :=
  ⟨(C10_ingestion_amended _).1.2.1 "abc" rfl
      (by simp [Server.jsParseFloat, Server.isWs, Server.digitsVal]),
   (C10_ingestion_amended _).2.2.2.2.2.2.2.2.2.1 rfl⟩

end Silo
